import Mathlib

/-!
Shallow embedding of the leafy-bank transactions backend
(`backend/services/transactions_service.py` and the API layer in
`backend/main.py`), together with proofs about its transfer logic.

Modelling conventions:
* MongoDB ObjectIds are `Nat`.
* Python floats are modelled by `PyFloat`: `nan`, signed infinities and exact
  finite values (`ℚ`).  Comparisons follow IEEE semantics (every comparison
  with `nan` is false); finite arithmetic is exact (the spec treats monetary
  values as decimals, so rounding of doubles is out of scope).
* `datetime.now(timezone.utc)` is a logical clock: each call yields the next
  tick, threaded explicitly.
* Each MongoDB collection is a list of documents; `find_one` is first-match
  lookup, `update_one` / `find_one_and_update` modify the first match.
* `insert_one` into `transactions` draws a fresh id from the `nextTxnId`
  counter of the database state (Mongo generates fresh ObjectIds).
* Notification message strings are presentation text (Python f-strings over
  float rendering) and are not carried in the model; events, addressing and
  account references are.
-/

/-- A Python float: `nan`, an infinity (`inf true` is negative infinity),
or an exact finite value. -/
inductive PyFloat where
  | nan : PyFloat
  | inf : Bool → PyFloat
  | fin : ℚ → PyFloat
deriving DecidableEq

/-- Python `<` on floats: any comparison involving `nan` is false. -/
def PyFloat.lt : PyFloat → PyFloat → Bool
  | .nan, _ => false
  | _, .nan => false
  | .inf t, .inf u => t && !u
  | .inf t, .fin _ => t
  | .fin _, .inf u => !u
  | .fin q, .fin r => decide (q < r)

/-- Python `<=` on floats: any comparison involving `nan` is false. -/
def PyFloat.le : PyFloat → PyFloat → Bool
  | .nan, _ => false
  | _, .nan => false
  | .inf t, .inf u => t || !u
  | .inf t, .fin _ => t
  | .fin _, .inf u => !u
  | .fin q, .fin r => decide (q ≤ r)

/-- Python `>` on floats. -/
def PyFloat.gt (a b : PyFloat) : Bool := PyFloat.lt b a

/-- Python unary negation on floats. -/
def PyFloat.neg : PyFloat → PyFloat
  | .nan => .nan
  | .inf t => .inf (!t)
  | .fin q => .fin (-q)

/-- Python `+` on floats (exact in the finite case; opposite infinities give
`nan`, as in IEEE arithmetic). -/
def PyFloat.add : PyFloat → PyFloat → PyFloat
  | .nan, _ => .nan
  | _, .nan => .nan
  | .inf t, .inf u => if t = u then .inf t else .nan
  | .inf t, .fin _ => .inf t
  | .fin _, .inf u => .inf u
  | .fin q, .fin r => .fin (q + r)

/-- Python truthiness of an `Optional[str]`: `None` and `""` are falsy. -/
def pyTruthy : Option String → Bool
  | none => false
  | some s => s != ""

/-- An `accounts` collection document (the fields the service reads). -/
structure Account where
  oid : Nat
  AccountBalance : PyFloat
  AccountNumber : String
  AccountType : String
  AccountStatus : String
  AccountCurrency : String
deriving DecidableEq

/-- One entry of a user's `RecentTransactions` array. -/
structure RecentTxn where
  TransactionId : Nat
  Date : Nat
deriving DecidableEq

/-- A `users` collection document.  `RecentTransactions := none` models a
document in which the field is absent. -/
structure User where
  oid : Nat
  UserName : String
  RecentTransactions : Option (List RecentTxn)
deriving DecidableEq

/-- One entry of a transaction's `TransactionDates` array. -/
structure TxnDate where
  TransactionDate : Nat
  TransactionDateType : String
deriving DecidableEq

/-- A sender/receiver reference block inside a transaction document. -/
structure TxnParty where
  UserId : Nat
  UserName : String
  AccountId : Nat
  AccountNumber : String
  AccountType : String
deriving DecidableEq

/-- A `transactions` collection document. `TransactionPaymentMethod := none`
models absence of the `TransactionDetails.TransactionPaymentMethod` key. -/
structure Transaction where
  oid : Nat
  TransactionAmount : PyFloat
  TransactionDescription : String
  TransactionType : String
  TransactionInternal : Bool
  TransactionPaymentMethod : Option String
  TransactionSender : TxnParty
  TransactionReceiver : TxnParty
  TransactionDates : List TxnDate
  TransactionStatus : String
  TransactionCompleted : Bool
  TransactionNotified : Bool
deriving DecidableEq

/-- The `NotificationAccounts` block of a notification document. -/
structure NotifAccounts where
  AccountIdSender : Nat
  AccountNumberSender : String
  AccountTypeSender : String
  AccountIdReceiver : Nat
  AccountNumberReceiver : String
  AccountTypeReceiver : String
deriving DecidableEq

/-- A `notifications` collection document (message text omitted, see header). -/
structure Notification where
  NotificationEvent : String
  NotificationDate : Nat
  NotificationUserName : String
  NotificationUserId : Nat
  NotificationTransactionId : Nat
  NotificationAccounts : NotifAccounts
deriving DecidableEq

/-- The database state: the four collections the service touches, plus the
fresh-ObjectId counter for `transactions` inserts. -/
structure DB where
  accounts : List Account
  users : List User
  transactions : List Transaction
  notifications : List Notification
  nextTxnId : Nat
deriving DecidableEq

/-- The argument list of `TransactionsService.perform_transaction`, bundled.
`payment_method := none` models Python `None`; the Python default is `"N/A"`. -/
structure TransferRequest where
  account_id_receiver : Nat
  account_id_sender : Nat
  transaction_amount : PyFloat
  sender_user_id : Nat
  sender_user_name : String
  sender_account_number : String
  sender_account_type : String
  receiver_user_id : Nat
  receiver_user_name : String
  receiver_account_number : String
  receiver_account_type : String
  transaction_type : String
  transaction_description : String
  payment_method : Option String
deriving DecidableEq

/-- A user identifier: `Union[str, ObjectId]` in the Python source. -/
inductive UserIdent where
  | oid : Nat → UserIdent
  | username : String → UserIdent
deriving DecidableEq

/-- The query built from a user identifier (`{"_id": ...}` or
`{"UserName": ...}`). -/
def userMatches (ui : UserIdent) (u : User) : Bool :=
  match ui with
  | .oid n => u.oid == n
  | .username s => u.UserName == s

/-- `is_valid_user`: the user exists. -/
def is_valid_user (db : DB) (user_identifier : UserIdent) : Bool :=
  (db.users.find? (userMatches user_identifier)).isSome

/-- `find_one_and_update` with `$inc` on `AccountBalance` and
`return_document=True`: updates the first matching account and returns its
post-image; `(none, unchanged)` when no account matches. -/
def findAndIncBalance (accs : List Account) (aid : Nat) (delta : PyFloat) :
    Option Account × List Account :=
  match accs with
  | [] => (none, [])
  | a :: rest =>
    if a.oid == aid then
      let a2 := { a with AccountBalance := a.AccountBalance.add delta }
      (some a2, a2 :: rest)
    else
      let r := findAndIncBalance rest aid delta
      (r.1, a :: r.2)

/-- `update_one` on the `transactions` collection by `_id`: rewrites the
first matching document. -/
def updateTxnFirst (ts : List Transaction) (tid : Nat)
    (f : Transaction → Transaction) : List Transaction :=
  match ts with
  | [] => []
  | t :: rest =>
    if t.oid == tid then f t :: rest else t :: updateTxnFirst rest tid f

/-- The `$slice: -20` cap: keep only the last 20 entries of the array. -/
def applySliceCap (l : List RecentTxn) : List RecentTxn :=
  l.drop (l.length - 20)

/-- `update_one` on `users` with
`$push: {RecentTransactions: {$each: [e], $slice: -20}}`: appends to the
first matching user's array (creating it when absent) and caps it at the
most recent 20 entries. -/
def pushRecentCapped (us : List User) (uid : Nat) (e : RecentTxn) : List User :=
  match us with
  | [] => []
  | u :: rest =>
    if u.oid == uid then
      let capped := applySliceCap ((u.RecentTransactions.getD []) ++ [e])
      { u with RecentTransactions := some capped } :: rest
    else u :: pushRecentCapped rest uid e

/-- The pre-transaction validation cascade of `perform_transaction`
(source lines 110-172), returning the `logging.error` message of the first
failing check, or `none` when every check passes.  The amount has already
been through `float(...)`; an unparsable amount is modelled at the API layer
(`validate_transaction_amount`). -/
def preValidation (db : DB) (r : TransferRequest) : Option String :=
  if r.transaction_amount.le (.fin 0) then
    some ("Transaction amount must be greater than 0.")
  else if r.transaction_amount.gt (.fin 500) then
    some ("Transaction amount exceeds the limit of 500.0.")
  else
    match db.accounts.find? (fun a => a.oid == r.account_id_sender) with
    | none => some ("Sender account not found.")
    | some sender_account =>
      if sender_account.AccountBalance.lt r.transaction_amount then
        some ("Insufficient funds in sender account.")
      else if sender_account.AccountStatus = "Closed" then
        some ("Sender account is closed.")
      else if sender_account.AccountNumber ≠ r.sender_account_number ∨
          sender_account.AccountType ≠ r.sender_account_type then
        some ("Sender account details do not match.")
      else
        match db.users.find? (fun u => u.oid == r.sender_user_id) with
        | none => some ("Sender user details do not match.")
        | some sender_user =>
          if sender_user.UserName ≠ r.sender_user_name then
            some ("Sender user details do not match.")
          else
            match db.accounts.find? (fun a => a.oid == r.account_id_receiver) with
            | none => some ("Receiver account not found.")
            | some receiver_account =>
              if receiver_account.AccountStatus = "Closed" then
                some ("Receiver account is closed.")
              else if receiver_account.AccountNumber ≠ r.receiver_account_number ∨
                  receiver_account.AccountType ≠ r.receiver_account_type then
                some ("Receiver account details do not match.")
              else
                match db.users.find? (fun u => u.oid == r.receiver_user_id) with
                | none => some ("Receiver user details do not match.")
                | some receiver_user =>
                  if receiver_user.UserName ≠ r.receiver_user_name then
                    some ("Receiver user details do not match.")
                  else none

/-- The `transaction_internal` flag computed at the top of the callback
(source lines 181-184). -/
def transaction_internal (r : TransferRequest) : Bool :=
  decide (r.sender_user_name = r.receiver_user_name ∧
    r.sender_account_number ≠ r.receiver_account_number)

/-- The `transaction` document literal built by the callback (source lines
186-222), including the conditional `TransactionPaymentMethod` key. -/
def initialTxnDoc (tid clock : Nat) (r : TransferRequest) : Transaction :=
  { oid := tid
    TransactionAmount := r.transaction_amount
    TransactionDescription := r.transaction_description
    TransactionType := r.transaction_type
    TransactionInternal := transaction_internal r
    TransactionPaymentMethod :=
      if r.transaction_type = "DigitalPayment" ∧ pyTruthy r.payment_method then
        r.payment_method
      else none
    TransactionSender :=
      { UserId := r.sender_user_id, UserName := r.sender_user_name
        AccountId := r.account_id_sender
        AccountNumber := r.sender_account_number
        AccountType := r.sender_account_type }
    TransactionReceiver :=
      { UserId := r.receiver_user_id, UserName := r.receiver_user_name
        AccountId := r.account_id_receiver
        AccountNumber := r.receiver_account_number
        AccountType := r.receiver_account_type }
    TransactionDates := [⟨clock, "TransactionInitiatedDate"⟩]
    TransactionStatus := "Initiated"
    TransactionCompleted := false
    TransactionNotified := false }

/-- The `$set`/`$push` update advancing a transaction to `Completed`
(source lines 248-263). -/
def completedStamp (date : Nat) (t : Transaction) : Transaction :=
  { t with TransactionStatus := "Completed", TransactionCompleted := true
           TransactionDates := t.TransactionDates ++
             [⟨date, "TransactionCompletedDate"⟩] }

/-- The `$set`/`$push` update advancing a transaction to `Notified`
(source lines 394-409). -/
def notifiedStamp (date : Nat) (t : Transaction) : Transaction :=
  { t with TransactionStatus := "Notified", TransactionNotified := true
           TransactionDates := t.TransactionDates ++
             [⟨date, "TransactionNotifiedDate"⟩] }

/-- The `notification_accounts` block (source lines 311-318). -/
def notifAccountsOf (r : TransferRequest) : NotifAccounts :=
  { AccountIdSender := r.account_id_sender
    AccountNumberSender := r.sender_account_number
    AccountTypeSender := r.sender_account_type
    AccountIdReceiver := r.account_id_receiver
    AccountNumberReceiver := r.receiver_account_number
    AccountTypeReceiver := r.receiver_account_type }

/-- The single notification of an internal transfer (source lines 321-334),
addressed to the shared user (the sender fields). -/
def internalNotification (r : TransferRequest) (tid date : Nat) : Notification :=
  { NotificationEvent := "InternalTransfer"
    NotificationDate := date
    NotificationUserName := r.sender_user_name
    NotificationUserId := r.sender_user_id
    NotificationTransactionId := tid
    NotificationAccounts := notifAccountsOf r }

/-- The sender-side notification of a non-internal transfer (source lines
338-350 and 365-377): `TransferSent` for an `AccountTransfer`, `PaymentMade`
otherwise. -/
def senderNotification (r : TransferRequest) (tid date : Nat) : Notification :=
  { NotificationEvent :=
      if r.transaction_type = "AccountTransfer" then "TransferSent"
      else "PaymentMade"
    NotificationDate := date
    NotificationUserName := r.sender_user_name
    NotificationUserId := r.sender_user_id
    NotificationTransactionId := tid
    NotificationAccounts := notifAccountsOf r }

/-- The receiver-side notification of a non-internal transfer (source lines
351-363 and 378-390): `TransferReceived` for an `AccountTransfer`,
`PaymentReceived` otherwise. -/
def receiverNotification (r : TransferRequest) (tid date : Nat) : Notification :=
  { NotificationEvent :=
      if r.transaction_type = "AccountTransfer" then "TransferReceived"
      else "PaymentReceived"
    NotificationDate := date
    NotificationUserName := r.receiver_user_name
    NotificationUserId := r.receiver_user_id
    NotificationTransactionId := tid
    NotificationAccounts := notifAccountsOf r }

/-- Outcome of the transaction callback: Python `return False`, an exception
raised inside the callback (aborting the unit), or `return transaction_id`. -/
inductive CbResult where
  | retFalse : CbResult
  | raised : CbResult
  | ret : Nat → CbResult
deriving DecidableEq

/-- The `callback(session)` closure of `perform_transaction` (source lines
174-412), executed inside one MongoDB multi-document transaction.  Returns
the outcome plus the database and clock as they stand at the end of the
unit; on `raised` the caller discards them (rollback).  An exception can
arise only from the subscripts `sender_result[...]` / `receiver_result[...]`
in the notification messages, i.e. when a `find_one_and_update` on an
account matched nothing (the internal branch reads only `sender_result`). -/
def callback (db : DB) (clock : Nat) (r : TransferRequest) :
    CbResult × DB × Nat :=
  if r.sender_user_name = r.receiver_user_name ∧
      r.sender_account_number = r.receiver_account_number then
    (.retFalse, db, clock)
  else
    let transaction_id := db.nextTxnId
    let senderUpd := findAndIncBalance db.accounts r.account_id_sender
      r.transaction_amount.neg
    let receiverUpd := findAndIncBalance senderUpd.2 r.account_id_receiver
      r.transaction_amount
    let transactions2 := updateTxnFirst
      (db.transactions ++ [initialTxnDoc transaction_id clock r])
      transaction_id (completedStamp (clock + 1))
    if transaction_internal r then
      let users2 := pushRecentCapped db.users r.sender_user_id
        ⟨transaction_id, clock + 2⟩
      match senderUpd.1 with
      | none => (.raised, db, clock)
      | some _ =>
        (.ret transaction_id,
         { accounts := receiverUpd.2, users := users2
           transactions := updateTxnFirst transactions2 transaction_id
             (notifiedStamp (clock + 4))
           notifications := db.notifications ++
             [internalNotification r transaction_id (clock + 3)]
           nextTxnId := db.nextTxnId + 1 },
         clock + 5)
    else
      let users2 := pushRecentCapped
        (pushRecentCapped db.users r.sender_user_id ⟨transaction_id, clock + 2⟩)
        r.receiver_user_id ⟨transaction_id, clock + 3⟩
      match senderUpd.1, receiverUpd.1 with
      | some _, some _ =>
        (.ret transaction_id,
         { accounts := receiverUpd.2, users := users2
           transactions := updateTxnFirst transactions2 transaction_id
             (notifiedStamp (clock + 5))
           notifications := db.notifications ++
             [senderNotification r transaction_id (clock + 4),
              receiverNotification r transaction_id (clock + 4)]
           nextTxnId := db.nextTxnId + 1 },
         clock + 6)
      | _, _ => (.raised, db, clock)

/-- The value `perform_transaction` hands back: the inserted ObjectId,
`None` (after a `logging.error`, whose message we record), or the `False`
that the callback's self-transfer guard produces. -/
inductive TxnResult where
  | ok : Nat → TxnResult
  | logged : String → TxnResult
  | falseGuard : TxnResult
deriving DecidableEq

/-- The Python value of a `TxnResult` (the service returns `None` for every
logged failure, whatever the message). -/
inductive PyValue where
  | objectId : Nat → PyValue
  | noneV : PyValue
  | falseV : PyValue
deriving DecidableEq

/-- Projection to the Python return value. -/
def TxnResult.toPyValue : TxnResult → PyValue
  | .ok tid => .objectId tid
  | .logged _ => .noneV
  | .falseGuard => .falseV

/-- `TransactionsService.perform_transaction` (source lines 79-443): the
validation cascade, then `session.with_transaction(callback)`.  A raised
exception rolls the unit back (original state) and returns `None`; a
committed callback's state becomes visible together with its return value. -/
def perform_transaction (db : DB) (clock : Nat) (r : TransferRequest) :
    TxnResult × DB × Nat :=
  match preValidation db r with
  | some msg => (.logged msg, db, clock)
  | none =>
    match callback db clock r with
    | (.retFalse, db1, c1) => (.falseGuard, db1, c1)
    | (.raised, _, _) => (.logged ("Transaction failed"), db, clock)
    | (.ret tid, db1, c1) => (.ok tid, db1, c1)

/-- Largest `TransactionDate` in a transaction's `TransactionDates` array
(Python `max(...)`; totalised with 0 — `perform_transaction` never creates an
empty dates array, on which Python would raise). -/
def maxTransactionDate (t : Transaction) : Nat :=
  (t.TransactionDates.map (fun d => d.TransactionDate)).foldl Nat.max 0

/-- Insert into a list sorted by strictly descending key. -/
def insertByDesc {α : Type} (key : α → Nat) (x : α) : List α → List α
  | [] => [x]
  | y :: ys => if key y < key x then x :: y :: ys else y :: insertByDesc key x ys

/-- Sort by descending key (Python `sorted(..., reverse=True)`). -/
def sortByDesc {α : Type} (key : α → Nat) : List α → List α
  | [] => []
  | x :: xs => insertByDesc key x (sortByDesc key xs)

/-- `get_recent_transactions_for_user` (source lines 48-77): read-only query
returning `[]` when the user is missing or has no `RecentTransactions`
field; otherwise resolves the most recent 20 references against the
`transactions` collection, most recent first. -/
def get_recent_transactions_for_user (db : DB) (user_identifier : UserIdent) :
    List Transaction :=
  match db.users.find? (userMatches user_identifier) with
  | none => []
  | some user =>
    match user.RecentTransactions with
    | none => []
    | some recent =>
      let recent_transactions :=
        (sortByDesc (fun x => x.Date) recent).take 20
      let transaction_ids := recent_transactions.map (fun t => t.TransactionId)
      let transactions :=
        db.transactions.filter (fun t => transaction_ids.contains t.oid)
      sortByDesc maxTransactionDate transactions

/-- An API-layer response: an `HTTPException` (status, detail) or a success
body carrying the transaction id. -/
inductive ApiResult where
  | httpError : Nat → String → ApiResult
  | success : Nat → ApiResult
deriving DecidableEq

/-- `validate_transaction_amount` in `backend/main.py` (lines 45-64):
`none` input models a `float(...)` `ValueError`. -/
def validate_transaction_amount (a : Option PyFloat) :
    Except (Nat × String) PyFloat :=
  match a with
  | none => .error (400, "Transaction amount must be a valid number.")
  | some transaction_amount =>
    if transaction_amount.le (.fin 0) then
      .error (400, "Transaction amount must be greater than 0.")
    else if transaction_amount.gt (.fin 500) then
      .error (400, "Transaction amount exceeds the limit of 500.0.")
    else .ok transaction_amount

/-- The `/perform-digital-payment` endpoint (`backend/main.py` lines
147-196): amount validation, then the payment-method guard, then
`perform_transaction` with `transaction_type="DigitalPayment"`. -/
def perform_digital_payment (db : DB) (clock : Nat) (raw_amount : Option PyFloat)
    (payment_method : Option String)
    (account_id_sender account_id_receiver : Nat)
    (sender_user_id : Nat) (sender_user_name : String)
    (sender_account_number sender_account_type : String)
    (receiver_user_id : Nat) (receiver_user_name : String)
    (receiver_account_number receiver_account_type : String) :
    ApiResult × DB × Nat :=
  match validate_transaction_amount raw_amount with
  | .error e => (.httpError e.1 e.2, db, clock)
  | .ok transaction_amount =>
    if pyTruthy payment_method = false ∨ payment_method = some ("N/A") then
      (.httpError 400 ("Payment method must be selected for a digital payment."),
       db, clock)
    else
      let r : TransferRequest :=
        { account_id_receiver := account_id_receiver
          account_id_sender := account_id_sender
          transaction_amount := transaction_amount
          sender_user_id := sender_user_id
          sender_user_name := sender_user_name
          sender_account_number := sender_account_number
          sender_account_type := sender_account_type
          receiver_user_id := receiver_user_id
          receiver_user_name := receiver_user_name
          receiver_account_number := receiver_account_number
          receiver_account_type := receiver_account_type
          transaction_type := "DigitalPayment"
          transaction_description := "N/A"
          payment_method := payment_method }
      let out := perform_transaction db clock r
      match out.1 with
      | .ok tid => (.success tid, out.2.1, out.2.2)
      | _ => (.httpError 400 ("Digital payment transaction failed."),
              out.2.1, out.2.2)

/-- A concrete open checking account, used by the concrete evaluations. -/
def acct1 : Account :=
  { oid := 1, AccountBalance := .fin 100, AccountNumber := "111"
    AccountType := "Checking", AccountStatus := "Open", AccountCurrency := "USD" }

/-- A concrete open savings account. -/
def acct2 : Account :=
  { oid := 2, AccountBalance := .fin 200, AccountNumber := "222"
    AccountType := "Savings", AccountStatus := "Open", AccountCurrency := "USD" }

/-- A concrete user with an (empty) `RecentTransactions` array. -/
def userAlice : User :=
  { oid := 10, UserName := "alice", RecentTransactions := some [] }

/-- A concrete user whose document has no `RecentTransactions` field. -/
def userBob : User :=
  { oid := 11, UserName := "bob", RecentTransactions := none }

/-- Database holding one open account and two users. -/
def dbSameAccount : DB :=
  { accounts := [acct1], users := [userAlice, userBob], transactions := []
    notifications := [], nextTxnId := 0 }

/-- A request in which sender and receiver are different users but the same
account document; every validation check passes. -/
def reqSameAccount : TransferRequest :=
  { account_id_receiver := 1, account_id_sender := 1
    transaction_amount := .fin 50
    sender_user_id := 10, sender_user_name := "alice"
    sender_account_number := "111", sender_account_type := "Checking"
    receiver_user_id := 11, receiver_user_name := "bob"
    receiver_account_number := "111", receiver_account_type := "Checking"
    transaction_type := "AccountTransfer"
    transaction_description := "N/A", payment_method := some ("N/A") }

/-- Folding a list of transfer requests through `perform_transaction`
("any number of transfers"). -/
def performAll (db : DB) (clock : Nat) : List TransferRequest → DB × Nat
  | [] => (db, clock)
  | r :: rs => performAll (perform_transaction db clock r).2.1
      (perform_transaction db clock r).2.2 rs

/-- Invariant: no user's `RecentTransactions` array (absent field = empty)
holds more than 20 entries. -/
def RecentLenInv (db : DB) : Prop :=
  ∀ u ∈ db.users, (u.RecentTransactions.getD []).length ≤ 20

/-- Invariant: every transaction document's id is older than the fresh-id
counter (Mongo never reuses an ObjectId for a new insert). -/
def TxnFresh (db : DB) : Prop :=
  ∀ t ∈ db.transactions, t.oid ≠ db.nextTxnId

/-- Database holding both concrete accounts and both concrete users. -/
def dbTwoAccounts : DB :=
  { accounts := [acct1, acct2], users := [userAlice, userBob]
    transactions := [], notifications := [], nextTxnId := 0 }

/-- An ordinary valid transfer: alice's checking account to bob's savings
account, amount 50, type `AccountTransfer`. -/
def reqAliceBob : TransferRequest :=
  { account_id_receiver := 2, account_id_sender := 1
    transaction_amount := .fin 50
    sender_user_id := 10, sender_user_name := "alice"
    sender_account_number := "111", sender_account_type := "Checking"
    receiver_user_id := 11, receiver_user_name := "bob"
    receiver_account_number := "222", receiver_account_type := "Savings"
    transaction_type := "AccountTransfer"
    transaction_description := "N/A", payment_method := some ("N/A") }

/-- The same transfer with amount `float("nan")`. -/
def reqNanAliceBob : TransferRequest :=
  { reqAliceBob with transaction_amount := .nan }

/-- A self-transfer: same username and same account number. -/
def reqSelf : TransferRequest :=
  { reqAliceBob with
    account_id_receiver := 1,
    receiver_user_id := 10, receiver_user_name := "alice",
    receiver_account_number := "111", receiver_account_type := "Checking" }

/-- An internal transfer: alice moves 50 between her two accounts. -/
def reqInternal : TransferRequest :=
  { reqAliceBob with receiver_user_id := 10, receiver_user_name := "alice" }

/-- A digital payment from alice to bob with a real payment method. -/
def reqZelle : TransferRequest :=
  { reqAliceBob with
    transaction_type := "DigitalPayment"
    payment_method := some ("Zelle") }

/-- A closed account that also has a balance below 50. -/
def acct3 : Account :=
  { oid := 3, AccountBalance := .fin 10, AccountNumber := "333"
    AccountType := "Checking", AccountStatus := "Closed"
    AccountCurrency := "USD" }

/-- Database whose only sender candidate is the closed, underfunded account. -/
def dbClosedPoor : DB :=
  { accounts := [acct3, acct2], users := [userAlice, userBob]
    transactions := [], notifications := [], nextTxnId := 0 }

/-- A transfer drawn on the closed, underfunded account. -/
def reqClosedPoor : TransferRequest :=
  { reqAliceBob with
    account_id_sender := 3
    sender_account_number := "333", sender_account_type := "Checking" }

/-- The alice-to-bob transfer with amount 600, above the 500 ceiling. -/
def req600 : TransferRequest :=
  { reqAliceBob with transaction_amount := .fin 600 }

/-- Debiting one balance by a finite amount and crediting another by the
same amount preserves their (`PyFloat`) sum. -/
theorem pyFloat_transfer_conserve (b c : PyFloat) (q : ℚ) :
    (b.add (PyFloat.fin q).neg).add (c.add (PyFloat.fin q)) = b.add c := by
  cases b <;> cases c <;> simp [PyFloat.add, PyFloat.neg]
  ring

/-- `findAndIncBalance` updates exactly the first matching account: it
returns the post-image, the post-image is what a subsequent lookup of the
same id sees, and lookups of any other id are untouched. -/
theorem findAndIncBalance_spec (accs : List Account) (aid : Nat) (d : PyFloat)
    (a : Account) (h : accs.find? (fun x => x.oid == aid) = some a) :
    (findAndIncBalance accs aid d).1 =
      some { a with AccountBalance := a.AccountBalance.add d } ∧
    (findAndIncBalance accs aid d).2.find? (fun x => x.oid == aid) =
      some { a with AccountBalance := a.AccountBalance.add d } ∧
    ∀ bid : Nat, bid ≠ aid →
      (findAndIncBalance accs aid d).2.find? (fun x => x.oid == bid) =
        accs.find? (fun x => x.oid == bid) := by
  induction accs with
  | nil => simp at h
  | cons x rest ih =>
    by_cases hx : (x.oid == aid) = true
    · simp only [List.find?, hx] at h
      injection h with h
      subst h
      have hoid : x.oid = aid := by simpa using hx
      refine ⟨by simp [findAndIncBalance, hx], ?_, ?_⟩
      · simp [findAndIncBalance, hx, List.find?, hoid]
      · intro bid hbid
        have h1 : (x.oid == bid) = false := by simp [hoid, Ne.symm hbid]
        simp [findAndIncBalance, hx, List.find?, h1]
    · have hx2 : (x.oid == aid) = false := by simpa using hx
      simp only [List.find?, hx2] at h
      obtain ⟨ih1, ih2, ih3⟩ := ih h
      refine ⟨by simp [findAndIncBalance, hx2, ih1], ?_, ?_⟩
      · simp [findAndIncBalance, hx2, List.find?, ih2]
      · intro bid hbid
        by_cases hxb : (x.oid == bid) = true
        · simp [findAndIncBalance, hx2, List.find?, hxb]
        · have hxb2 : (x.oid == bid) = false := by simpa using hxb
          simp [findAndIncBalance, hx2, List.find?, hxb2, ih3 bid hbid]

/-- Appending a fresh-id document and then updating that id twice touches
only the appended document. -/
theorem updateTxnFirst_append_fresh (ts : List Transaction) (doc : Transaction)
    (tid : Nat) (f : Transaction → Transaction)
    (hdoc : doc.oid = tid) (hfresh : ∀ t ∈ ts, t.oid ≠ tid) :
    updateTxnFirst (ts ++ [doc]) tid f = ts ++ [f doc] := by
  induction ts with
  | nil => simp [updateTxnFirst, hdoc]
  | cons t rest ih =>
    have ht : (t.oid == tid) = false := by
      simpa using hfresh t (List.mem_cons_self t rest)
    simp only [List.cons_append, updateTxnFirst, ht, Bool.false_eq_true,
      if_false, List.cons.injEq, true_and]
    exact ih (fun u hu => hfresh u (List.mem_cons_of_mem _ hu))

/-- Looking up a fresh id after appending a document bearing it finds that
document. -/
theorem find?_append_fresh (ts : List Transaction) (doc : Transaction)
    (tid : Nat) (hdoc : doc.oid = tid) (hfresh : ∀ t ∈ ts, t.oid ≠ tid) :
    (ts ++ [doc]).find? (fun x => x.oid == tid) = some doc := by
  induction ts with
  | nil => simp [List.find?, hdoc]
  | cons t rest ih =>
    have ht : (t.oid == tid) = false := by
      simpa using hfresh t (List.mem_cons_self t rest)
    simp only [List.cons_append, List.find?, ht]
    exact ih (fun u hu => hfresh u (List.mem_cons_of_mem _ hu))

/-- The capped array never exceeds 20 entries. -/
theorem applySliceCap_length_le (l : List RecentTxn) :
    (applySliceCap l).length ≤ 20 := by
  simp [applySliceCap]
  omega

/-- The capped array is a suffix of the uncapped one: the entries that
survive are the most recently appended ones, the evicted ones the oldest. -/
theorem applySliceCap_suffix (l : List RecentTxn) :
    applySliceCap l <:+ l :=
  List.drop_suffix _ l

/-- No eviction happens before the array holds 20 entries. -/
theorem applySliceCap_of_le (l : List RecentTxn) (h : l.length ≤ 20) :
    applySliceCap l = l := by
  simp [applySliceCap, Nat.sub_eq_zero_of_le h]

/-- `pushRecentCapped` preserves the 20-entry bound on every user. -/
theorem pushRecentCapped_inv (us : List User) (uid : Nat) (e : RecentTxn)
    (h : ∀ u ∈ us, (u.RecentTransactions.getD []).length ≤ 20) :
    ∀ u ∈ pushRecentCapped us uid e,
      (u.RecentTransactions.getD []).length ≤ 20 := by
  induction us with
  | nil => simp [pushRecentCapped]
  | cons x rest ih =>
    intro u hu
    by_cases hx : (x.oid == uid) = true
    · simp only [pushRecentCapped, hx, if_true] at hu
      rcases List.mem_cons.mp hu with hu2 | hu2
      · subst hu2
        simpa using applySliceCap_length_le _
      · exact h u (List.mem_cons_of_mem _ hu2)
    · have hx2 : (x.oid == uid) = false := by simpa using hx
      simp only [pushRecentCapped, hx2, Bool.false_eq_true, if_false] at hu
      rcases List.mem_cons.mp hu with hu2 | hu2
      · subst hu2
        exact h u (List.mem_cons_self _ _)
      · exact ih (fun v hv => h v (List.mem_cons_of_mem _ hv)) u hu2

/-- A `retFalse` outcome comes only from the self-transfer guard, before any
write: state and clock are returned unchanged. -/
theorem callback_retFalse_spec (db : DB) (clock : Nat) (r : TransferRequest)
    (db2 : DB) (c2 : Nat)
    (h : callback db clock r = (.retFalse, db2, c2)) :
    db2 = db ∧ c2 = clock ∧
    (r.sender_user_name = r.receiver_user_name ∧
      r.sender_account_number = r.receiver_account_number) := by
  unfold callback at h
  by_cases hg : r.sender_user_name = r.receiver_user_name ∧
      r.sender_account_number = r.receiver_account_number
  · rw [if_pos hg] at h
    simp only [Prod.mk.injEq] at h
    exact ⟨h.2.1.symm, h.2.2.symm, hg⟩
  · rw [if_neg hg] at h
    exfalso
    simp only [] at h
    split at h
    · split at h <;> simp_all
    · split at h <;> simp_all

/-- Full characterization of a committed callback run: the guard was false,
the returned id is the freshly inserted one, and the final state is exactly
the source's update sequence (debit, credit, insert, Completed stamp,
recent-activity pushes, notifications, Notified stamp). -/
theorem callback_ret_spec (db : DB) (clock : Nat) (r : TransferRequest)
    (tid : Nat) (db2 : DB) (c2 : Nat)
    (h : callback db clock r = (.ret tid, db2, c2)) :
    ¬(r.sender_user_name = r.receiver_user_name ∧
        r.sender_account_number = r.receiver_account_number) ∧
    tid = db.nextTxnId ∧
    db2.accounts = (findAndIncBalance
      (findAndIncBalance db.accounts r.account_id_sender
        r.transaction_amount.neg).2
      r.account_id_receiver r.transaction_amount).2 ∧
    db2.nextTxnId = db.nextTxnId + 1 ∧
    (if transaction_internal r = true then
      db2.users = pushRecentCapped db.users r.sender_user_id ⟨tid, clock + 2⟩ ∧
      db2.transactions = updateTxnFirst (updateTxnFirst
        (db.transactions ++ [initialTxnDoc tid clock r]) tid
        (completedStamp (clock + 1))) tid (notifiedStamp (clock + 4)) ∧
      db2.notifications = db.notifications ++
        [internalNotification r tid (clock + 3)] ∧
      c2 = clock + 5
    else
      db2.users = pushRecentCapped (pushRecentCapped db.users
        r.sender_user_id ⟨tid, clock + 2⟩) r.receiver_user_id
        ⟨tid, clock + 3⟩ ∧
      db2.transactions = updateTxnFirst (updateTxnFirst
        (db.transactions ++ [initialTxnDoc tid clock r]) tid
        (completedStamp (clock + 1))) tid (notifiedStamp (clock + 5)) ∧
      db2.notifications = db.notifications ++
        [senderNotification r tid (clock + 4),
         receiverNotification r tid (clock + 4)] ∧
      c2 = clock + 6) := by
  unfold callback at h
  by_cases hg : r.sender_user_name = r.receiver_user_name ∧
      r.sender_account_number = r.receiver_account_number
  · rw [if_pos hg] at h
    simp at h
  · rw [if_neg hg] at h
    simp only [] at h
    refine ⟨hg, ?_⟩
    by_cases hint : transaction_internal r = true
    · rw [if_pos hint] at h
      rw [if_pos hint]
      split at h
      · simp at h
      · simp only [Prod.mk.injEq, CbResult.ret.injEq] at h
        obtain ⟨htid, hdb2, hc2⟩ := h
        subst htid
        subst hdb2
        subst hc2
        exact ⟨rfl, rfl, rfl, rfl, rfl, rfl, rfl⟩
    · rw [if_neg hint] at h
      rw [if_neg hint]
      split at h
      · simp only [Prod.mk.injEq, CbResult.ret.injEq] at h
        obtain ⟨htid, hdb2, hc2⟩ := h
        subst htid
        subst hdb2
        subst hc2
        exact ⟨rfl, rfl, rfl, rfl, rfl, rfl, rfl⟩
      · simp at h

/-- A successful `perform_transaction` means the validation cascade passed
and the callback committed, with the service returning the callback's id and
post-state. -/
theorem perform_ok_elim (db : DB) (clock : Nat) (r : TransferRequest)
    (tid : Nat) (h : (perform_transaction db clock r).1 = .ok tid) :
    preValidation db r = none ∧
    callback db clock r = (.ret tid, (perform_transaction db clock r).2.1,
      (perform_transaction db clock r).2.2) := by
  cases hpre : preValidation db r with
  | some msg =>
    unfold perform_transaction at h
    rw [hpre] at h
    simp at h
  | none =>
    refine ⟨rfl, ?_⟩
    unfold perform_transaction at h ⊢
    rw [hpre] at h ⊢
    rcases hcb : callback db clock r with ⟨res, db2, c2⟩
    rw [hcb] at h
    cases res with
    | retFalse => simp at h
    | raised => simp at h
    | ret t =>
      simp at h
      subst h
      simp

/-- Every non-`ok` outcome of `perform_transaction` leaves the database and
the clock untouched. -/
theorem perform_fail_unchanged (db : DB) (clock : Nat) (r : TransferRequest)
    (h : ∀ tid, (perform_transaction db clock r).1 ≠ .ok tid) :
    (perform_transaction db clock r).2.1 = db ∧
    (perform_transaction db clock r).2.2 = clock := by
  cases hpre : preValidation db r with
  | some msg =>
    unfold perform_transaction
    rw [hpre]
    simp
  | none =>
    unfold perform_transaction at h ⊢
    rw [hpre] at h ⊢
    rcases hcb : callback db clock r with ⟨res, db2, c2⟩
    rw [hcb] at h
    cases res with
    | retFalse =>
      obtain ⟨h1, h2, _⟩ := callback_retFalse_spec db clock r db2 c2 hcb
      simp [h1, h2]
    | raised => simp
    | ret t => exact absurd (by simp) (h t)

/-- What passing the whole validation cascade guarantees about the request
and the database snapshots it read. -/
theorem preValidation_none_elim (db : DB) (r : TransferRequest)
    (h : preValidation db r = none) :
    r.transaction_amount.le (.fin 0) = false ∧
    r.transaction_amount.gt (.fin 500) = false ∧
    ∃ sa su ra ru,
      db.accounts.find? (fun a => a.oid == r.account_id_sender) = some sa ∧
      sa.AccountBalance.lt r.transaction_amount = false ∧
      sa.AccountStatus ≠ "Closed" ∧
      sa.AccountNumber = r.sender_account_number ∧
      sa.AccountType = r.sender_account_type ∧
      db.users.find? (fun u => u.oid == r.sender_user_id) = some su ∧
      su.UserName = r.sender_user_name ∧
      db.accounts.find? (fun a => a.oid == r.account_id_receiver) = some ra ∧
      ra.AccountStatus ≠ "Closed" ∧
      ra.AccountNumber = r.receiver_account_number ∧
      ra.AccountType = r.receiver_account_type ∧
      db.users.find? (fun u => u.oid == r.receiver_user_id) = some ru ∧
      ru.UserName = r.receiver_user_name := by
  unfold preValidation at h
  by_cases h1 : r.transaction_amount.le (.fin 0) = true
  · rw [if_pos h1] at h
    exact absurd h (by simp)
  · rw [if_neg h1] at h
    by_cases h2 : r.transaction_amount.gt (.fin 500) = true
    · rw [if_pos h2] at h
      exact absurd h (by simp)
    · rw [if_neg h2] at h
      refine ⟨by simpa using h1, by simpa using h2, ?_⟩
      cases hsa : db.accounts.find? (fun a => a.oid == r.account_id_sender) with
      | none => rw [hsa] at h; exact absurd h (by simp)
      | some sa =>
        rw [hsa] at h
        simp only [] at h
        by_cases h3 : sa.AccountBalance.lt r.transaction_amount = true
        · rw [if_pos h3] at h
          exact absurd h (by simp)
        · rw [if_neg h3] at h
          by_cases h4 : sa.AccountStatus = "Closed"
          · rw [if_pos h4] at h
            exact absurd h (by simp)
          · rw [if_neg h4] at h
            by_cases h5 : sa.AccountNumber ≠ r.sender_account_number ∨
                sa.AccountType ≠ r.sender_account_type
            · rw [if_pos h5] at h
              exact absurd h (by simp)
            · rw [if_neg h5] at h
              push_neg at h5
              cases hsu : db.users.find? (fun u => u.oid == r.sender_user_id) with
              | none => rw [hsu] at h; exact absurd h (by simp)
              | some su =>
                rw [hsu] at h
                simp only [] at h
                by_cases h6 : su.UserName ≠ r.sender_user_name
                · rw [if_pos h6] at h
                  exact absurd h (by simp)
                · rw [if_neg h6] at h
                  cases hra : db.accounts.find?
                      (fun a => a.oid == r.account_id_receiver) with
                  | none => rw [hra] at h; exact absurd h (by simp)
                  | some ra =>
                    rw [hra] at h
                    simp only [] at h
                    by_cases h7 : ra.AccountStatus = "Closed"
                    · rw [if_pos h7] at h
                      exact absurd h (by simp)
                    · rw [if_neg h7] at h
                      by_cases h8 : ra.AccountNumber ≠ r.receiver_account_number ∨
                          ra.AccountType ≠ r.receiver_account_type
                      · rw [if_pos h8] at h
                        exact absurd h (by simp)
                      · rw [if_neg h8] at h
                        push_neg at h8
                        cases hru : db.users.find?
                            (fun u => u.oid == r.receiver_user_id) with
                        | none => rw [hru] at h; exact absurd h (by simp)
                        | some ru =>
                          rw [hru] at h
                          simp only [] at h
                          by_cases h9 : ru.UserName ≠ r.receiver_user_name
                          · rw [if_pos h9] at h
                            exact absurd h (by simp)
                          · exact ⟨sa, su, ra, ru, rfl, by simpa using h3, h4,
                              h5.1, h5.2, rfl, not_not.mp h6, rfl, h7, h8.1,
                              h8.2, rfl, not_not.mp h9⟩

/-- On success the committed transaction document is the initial document
stamped `Completed` then `Notified`, and it is what a lookup of the returned
id finds. -/
theorem perform_ok_txn_doc (db : DB) (clock : Nat) (r : TransferRequest)
    (tid : Nat) (hfresh : TxnFresh db)
    (h : (perform_transaction db clock r).1 = .ok tid) :
    ∃ d, clock + 1 < d ∧
      (perform_transaction db clock r).2.1.transactions.find?
          (fun x => x.oid == tid) =
        some (notifiedStamp d (completedStamp (clock + 1)
          (initialTxnDoc tid clock r))) := by
  obtain ⟨hpre, hcb⟩ := perform_ok_elim db clock r tid h
  obtain ⟨hg, htid, hacc, hnext, hif⟩ := callback_ret_spec db clock r tid _ _ hcb
  have hfr : ∀ t ∈ db.transactions, t.oid ≠ tid := by
    intro t ht
    rw [htid]
    exact hfresh t ht
  have hfr2 : ∀ t ∈ db.transactions, t.oid ≠ tid := hfr
  by_cases hint : transaction_internal r = true
  · rw [if_pos hint] at hif
    refine ⟨clock + 4, by omega, ?_⟩
    rw [hif.2.1]
    rw [updateTxnFirst_append_fresh db.transactions (initialTxnDoc tid clock r)
      tid (completedStamp (clock + 1)) rfl hfr]
    rw [updateTxnFirst_append_fresh db.transactions
      (completedStamp (clock + 1) (initialTxnDoc tid clock r)) tid
      (notifiedStamp (clock + 4)) rfl hfr]
    exact find?_append_fresh db.transactions _ tid rfl hfr
  · rw [if_neg hint] at hif
    refine ⟨clock + 5, by omega, ?_⟩
    rw [hif.2.1]
    rw [updateTxnFirst_append_fresh db.transactions (initialTxnDoc tid clock r)
      tid (completedStamp (clock + 1)) rfl hfr]
    rw [updateTxnFirst_append_fresh db.transactions
      (completedStamp (clock + 1) (initialTxnDoc tid clock r)) tid
      (notifiedStamp (clock + 5)) rfl hfr]
    exact find?_append_fresh db.transactions _ tid rfl hfr

/-- C7: a self-transfer request (same username and same account number)
never yields a transaction id and leaves the whole database state unchanged:
no Transaction record, no RecentTransactions update, no Notification and no
balance change. -/
theorem claim7_self_transfer_rejected (db : DB) (clock : Nat)
    (r : TransferRequest)
    (hname : r.sender_user_name = r.receiver_user_name)
    (hnum : r.sender_account_number = r.receiver_account_number) :
    (∀ tid, (perform_transaction db clock r).1 ≠ .ok tid) ∧
    (perform_transaction db clock r).2.1 = db ∧
    (perform_transaction db clock r).2.2 = clock := by
  have hok : ∀ tid, (perform_transaction db clock r).1 ≠ .ok tid := by
    intro tid hok
    obtain ⟨hpre, hcb⟩ := perform_ok_elim db clock r tid hok
    obtain ⟨hg, _⟩ := callback_ret_spec db clock r tid _ _ hcb
    exact hg ⟨hname, hnum⟩
  exact ⟨hok, perform_fail_unchanged db clock r hok⟩

/-- C7 witness: the concrete self-transfer is rejected with no state change. -/
theorem claim7_self_transfer_rejected_witness :
    (∀ tid, (perform_transaction dbTwoAccounts 0 reqSelf).1 ≠ .ok tid) ∧
    (perform_transaction dbTwoAccounts 0 reqSelf).2.1 = dbTwoAccounts ∧
    (perform_transaction dbTwoAccounts 0 reqSelf).2.2 = 0 :=
  claim7_self_transfer_rejected dbTwoAccounts 0 reqSelf rfl rfl

/-- C10: the failure indicator is not uniform in value: every pre-transaction
validation failure and every exception inside the unit returns Python `None`,
the in-unit self-transfer guard returns `False`, and success returns the
inserted ObjectId; success is distinguishable from both failure values, but
the two failure values differ from each other. -/
theorem claim10_failure_values (db : DB) (clock : Nat) (r : TransferRequest) :
    ((∃ msg, preValidation db r = some msg) →
      (perform_transaction db clock r).1.toPyValue = .noneV) ∧
    (preValidation db r = none →
      r.sender_user_name = r.receiver_user_name →
      r.sender_account_number = r.receiver_account_number →
      (perform_transaction db clock r).1 = .falseGuard ∧
      (perform_transaction db clock r).1.toPyValue = .falseV) ∧
    (∀ db2 c2, preValidation db r = none →
      callback db clock r = (.raised, db2, c2) →
      (perform_transaction db clock r).1 = .logged ("Transaction failed") ∧
      (perform_transaction db clock r).1.toPyValue = .noneV) ∧
    (∀ tid, (perform_transaction db clock r).1 = .ok tid →
      (perform_transaction db clock r).1.toPyValue = .objectId tid) ∧
    (∀ tid, PyValue.objectId tid ≠ .noneV ∧ PyValue.objectId tid ≠ .falseV) ∧
    PyValue.noneV ≠ PyValue.falseV := by
  refine ⟨?_, ?_, ?_, ?_, by simp, by simp⟩
  · rintro ⟨msg, hpre⟩
    unfold perform_transaction
    rw [hpre]
    simp [TxnResult.toPyValue]
  · intro hpre hname hnum
    have hcb : callback db clock r = (.retFalse, db, clock) := by
      unfold callback
      rw [if_pos ⟨hname, hnum⟩]
    unfold perform_transaction
    rw [hpre, hcb]
    simp [TxnResult.toPyValue]
  · intro db2 c2 hpre hcb
    unfold perform_transaction
    rw [hpre, hcb]
    simp [TxnResult.toPyValue]
  · intro tid hok
    rw [hok]
    simp [TxnResult.toPyValue]

/-- C10 witness: at the concrete self-transfer the guard value `False` is
returned, and it differs from `None` and from an ObjectId. -/
theorem claim10_failure_values_witness :
    (perform_transaction dbTwoAccounts 0 reqSelf).1 = .falseGuard ∧
    (perform_transaction dbTwoAccounts 0 reqSelf).1.toPyValue = .falseV :=
  (claim10_failure_values dbTwoAccounts 0 reqSelf).2.1
    (by
      simp [preValidation, dbTwoAccounts, reqSelf, reqAliceBob, acct1, acct2,
        userAlice, userBob, PyFloat.le, PyFloat.gt, PyFloat.lt, List.find?]
      norm_num)
    rfl rfl

/-- C9: a user identifier matching no user, or a user document without a
`RecentTransactions` field, yields the empty list (no error); the query
itself is read-only by construction. -/
theorem claim9_missing_user_empty (db : DB) (ui : UserIdent)
    (h : db.users.find? (userMatches ui) = none ∨
      ∃ u, db.users.find? (userMatches ui) = some u ∧
        u.RecentTransactions = none) :
    get_recent_transactions_for_user db ui = [] := by
  unfold get_recent_transactions_for_user
  rcases h with h | ⟨u, hu, hr⟩
  · rw [h]
  · rw [hu]
    simp only []
    rw [hr]

/-- C9 witness: the concrete user `bob` has no `RecentTransactions` field and
gets the empty list; an unknown id also gets the empty list. -/
theorem claim9_missing_user_empty_witness :
    get_recent_transactions_for_user dbTwoAccounts (.oid 11) = [] ∧
    get_recent_transactions_for_user dbTwoAccounts (.oid 99) = [] :=
  ⟨claim9_missing_user_empty dbTwoAccounts (.oid 11)
      (Or.inr ⟨userBob, by simp [dbTwoAccounts, userMatches, userAlice, userBob,
        List.find?], rfl⟩),
    claim9_missing_user_empty dbTwoAccounts (.oid 99)
      (Or.inl (by simp [dbTwoAccounts, userMatches, userAlice, userBob,
        List.find?]))⟩

/-- C2: a committed transfer's transaction record ends with
`TransactionStatus = "Notified"`, both booleans true, and a
`TransactionDates` array of exactly three entries whose types are, in order,
Initiated, Completed, Notified, with strictly increasing timestamps (one per
status transition Initiated then Completed then Notified, no skips). -/
theorem claim2_status_lifecycle (db : DB) (clock : Nat) (r : TransferRequest)
    (tid : Nat) (hfresh : TxnFresh db)
    (h : (perform_transaction db clock r).1 = .ok tid) :
    ∃ t : Transaction,
      (perform_transaction db clock r).2.1.transactions.find?
        (fun x => x.oid == tid) = some t ∧
      t.TransactionStatus = "Notified" ∧
      t.TransactionCompleted = true ∧
      t.TransactionNotified = true ∧
      t.TransactionDates.map (fun d => d.TransactionDateType) =
        ["TransactionInitiatedDate", "TransactionCompletedDate",
          "TransactionNotifiedDate"] ∧
      (t.TransactionDates.map (fun d => d.TransactionDate)).Pairwise (· < ·) := by
  obtain ⟨d, hd, hfind⟩ := perform_ok_txn_doc db clock r tid hfresh h
  refine ⟨_, hfind, rfl, rfl, rfl, ?_, ?_⟩
  · simp [notifiedStamp, completedStamp, initialTxnDoc]
  · simp [notifiedStamp, completedStamp, initialTxnDoc, List.pairwise_cons]
    omega

/-- C2 witness: the concrete alice-to-bob transfer commits and its record
shows the full Initiated, Completed, Notified lifecycle. -/
theorem claim2_status_lifecycle_witness :
    ∃ t : Transaction,
      (perform_transaction dbTwoAccounts 0 reqAliceBob).2.1.transactions.find?
        (fun x => x.oid == 0) = some t ∧
      t.TransactionStatus = "Notified" ∧
      t.TransactionCompleted = true ∧
      t.TransactionNotified = true ∧
      t.TransactionDates.map (fun d => d.TransactionDateType) =
        ["TransactionInitiatedDate", "TransactionCompletedDate",
          "TransactionNotifiedDate"] ∧
      (t.TransactionDates.map (fun d => d.TransactionDate)).Pairwise (· < ·) :=
  claim2_status_lifecycle dbTwoAccounts 0 reqAliceBob 0
    (by intro t ht; simp [dbTwoAccounts] at ht)
    (by
      simp [perform_transaction, preValidation, callback, findAndIncBalance,
        updateTxnFirst, applySliceCap, pushRecentCapped, pyTruthy,
        transaction_internal, initialTxnDoc, completedStamp, notifiedStamp,
        notifAccountsOf, internalNotification, senderNotification,
        receiverNotification, PyFloat.le, PyFloat.gt, PyFloat.lt, PyFloat.add,
        PyFloat.neg, dbTwoAccounts, reqAliceBob, acct1, acct2, userAlice,
        userBob, List.find?]
      norm_num)

/-- C1 (amended): for a commit with a finite amount and distinct sender and
receiver account documents, the sender balance is decreased and the receiver
balance increased by exactly the amount, and the sum of the two balances is
conserved; every failure return leaves all balances (indeed the whole
database) unchanged.  (The original claim fails when both sides name the
same account document, and the finiteness proviso is needed because a NaN
amount can commit.) -/
theorem claim1_amended_conservation (db : DB) (clock : Nat)
    (r : TransferRequest) (q : ℚ)
    (hq : r.transaction_amount = .fin q)
    (hneq : r.account_id_sender ≠ r.account_id_receiver)
    (sa ra : Account)
    (hsa : db.accounts.find? (fun a => a.oid == r.account_id_sender) = some sa)
    (hra : db.accounts.find?
      (fun a => a.oid == r.account_id_receiver) = some ra) :
    (∀ tid, (perform_transaction db clock r).1 = .ok tid →
      (perform_transaction db clock r).2.1.accounts.find?
          (fun a => a.oid == r.account_id_sender) =
        some { sa with AccountBalance :=
          sa.AccountBalance.add (PyFloat.fin q).neg } ∧
      (perform_transaction db clock r).2.1.accounts.find?
          (fun a => a.oid == r.account_id_receiver) =
        some { ra with AccountBalance := ra.AccountBalance.add (.fin q) } ∧
      (sa.AccountBalance.add (PyFloat.fin q).neg).add
          (ra.AccountBalance.add (.fin q)) =
        sa.AccountBalance.add ra.AccountBalance) ∧
    ((∀ tid, (perform_transaction db clock r).1 ≠ .ok tid) →
      (perform_transaction db clock r).2.1 = db) := by
  constructor
  · intro tid hok
    obtain ⟨hpre, hcb⟩ := perform_ok_elim db clock r tid hok
    obtain ⟨hg, htid, hacc, _⟩ := callback_ret_spec db clock r tid _ _ hcb
    rw [hq] at hacc
    obtain ⟨s1, s2, s3⟩ := findAndIncBalance_spec db.accounts
      r.account_id_sender (PyFloat.fin q).neg sa hsa
    have hra2 : (findAndIncBalance db.accounts r.account_id_sender
        (PyFloat.fin q).neg).2.find?
        (fun a => a.oid == r.account_id_receiver) = some ra := by
      rw [s3 r.account_id_receiver (Ne.symm hneq)]
      exact hra
    obtain ⟨r1, r2, r3⟩ := findAndIncBalance_spec _
      r.account_id_receiver (.fin q) ra hra2
    refine ⟨?_, ?_, pyFloat_transfer_conserve _ _ q⟩
    · rw [hacc, r3 r.account_id_sender hneq]
      exact s2
    · rw [hacc]
      exact r2
  · intro hfail
    exact (perform_fail_unchanged db clock r hfail).1

/-- C1 witness: the concrete alice-to-bob transfer debits 50, credits 50 and
conserves the sum; its hypotheses hold at the concrete input. -/
theorem claim1_amended_conservation_witness :
    (∀ tid, (perform_transaction dbTwoAccounts 0 reqAliceBob).1 = .ok tid →
      (perform_transaction dbTwoAccounts 0 reqAliceBob).2.1.accounts.find?
          (fun a => a.oid == reqAliceBob.account_id_sender) =
        some { acct1 with AccountBalance :=
          acct1.AccountBalance.add (PyFloat.fin 50).neg } ∧
      (perform_transaction dbTwoAccounts 0 reqAliceBob).2.1.accounts.find?
          (fun a => a.oid == reqAliceBob.account_id_receiver) =
        some { acct2 with AccountBalance :=
          acct2.AccountBalance.add (.fin 50) } ∧
      (acct1.AccountBalance.add (PyFloat.fin 50).neg).add
          (acct2.AccountBalance.add (.fin 50)) =
        acct1.AccountBalance.add acct2.AccountBalance) ∧
    ((∀ tid, (perform_transaction dbTwoAccounts 0 reqAliceBob).1 ≠ .ok tid) →
      (perform_transaction dbTwoAccounts 0 reqAliceBob).2.1 = dbTwoAccounts) :=
  claim1_amended_conservation dbTwoAccounts 0 reqAliceBob 50 rfl
    (by decide) acct1 acct2
    (by simp [dbTwoAccounts, reqAliceBob, acct1, acct2, List.find?])
    (by simp [dbTwoAccounts, reqAliceBob, acct1, acct2, List.find?])

/-- C1 counterexample: a commit in which sender and receiver are the same
account document (different users, same account).  The transfer commits and
returns a transaction id, yet the sender account's balance is unchanged at
100 rather than decreased by the amount 50. -/
theorem claim1_counterexample :
    (perform_transaction dbSameAccount 0 reqSameAccount).1 = .ok 0 ∧
    reqSameAccount.transaction_amount = .fin 50 ∧
    ((perform_transaction dbSameAccount 0 reqSameAccount).2.1.accounts.find?
        (fun a => a.oid == reqSameAccount.account_id_sender)).map
      Account.AccountBalance = some (.fin 100) ∧
    (dbSameAccount.accounts.find?
        (fun a => a.oid == reqSameAccount.account_id_sender)).map
      Account.AccountBalance = some (.fin 100) ∧
    PyFloat.fin 100 ≠ (PyFloat.fin 100).add (PyFloat.fin 50).neg := by
  refine ⟨?_, rfl, ?_, ?_, ?_⟩
  · simp [perform_transaction, preValidation, callback, findAndIncBalance,
      updateTxnFirst, applySliceCap, pushRecentCapped, pyTruthy,
      transaction_internal, initialTxnDoc, completedStamp, notifiedStamp,
      notifAccountsOf, internalNotification, senderNotification,
      receiverNotification, PyFloat.le, PyFloat.gt, PyFloat.lt, PyFloat.add,
      PyFloat.neg, dbSameAccount, reqSameAccount, acct1, acct2, userAlice,
      userBob, List.find?]
    norm_num
  · simp [perform_transaction, preValidation, callback, findAndIncBalance,
      updateTxnFirst, applySliceCap, pushRecentCapped, pyTruthy,
      transaction_internal, initialTxnDoc, completedStamp, notifiedStamp,
      notifAccountsOf, internalNotification, senderNotification,
      receiverNotification, PyFloat.le, PyFloat.gt, PyFloat.lt, PyFloat.add,
      PyFloat.neg, dbSameAccount, reqSameAccount, acct1, acct2, userAlice,
      userBob, List.find?]
  · simp [dbSameAccount, reqSameAccount, acct1, List.find?]
  · simp [PyFloat.add, PyFloat.neg]

/-- C4: a committed transfer's `internal` flag is exactly
(same username AND different account numbers), and the fan-out follows it:
internal gives one notification (`InternalTransfer`, addressed to the shared
user) and one recent-activity update; non-internal gives two notifications
(`TransferSent`/`TransferReceived` for an `AccountTransfer`,
`PaymentMade`/`PaymentReceived` otherwise), addressed to sender and
receiver, and two recent-activity updates, one per (distinct) user. -/
theorem claim4_internal_fanout (db : DB) (clock : Nat) (r : TransferRequest)
    (tid : Nat) (hfresh : TxnFresh db)
    (h : (perform_transaction db clock r).1 = .ok tid) :
    ∃ t, (perform_transaction db clock r).2.1.transactions.find?
        (fun x => x.oid == tid) = some t ∧
      (t.TransactionInternal = true ↔
        (r.sender_user_name = r.receiver_user_name ∧
          r.sender_account_number ≠ r.receiver_account_number)) ∧
      (t.TransactionInternal = true →
        (perform_transaction db clock r).2.1.notifications =
          db.notifications ++ [internalNotification r tid (clock + 3)] ∧
        (internalNotification r tid (clock + 3)).NotificationEvent =
          "InternalTransfer" ∧
        (internalNotification r tid (clock + 3)).NotificationUserName =
          r.sender_user_name ∧
        (internalNotification r tid (clock + 3)).NotificationUserId =
          r.sender_user_id ∧
        (perform_transaction db clock r).2.1.users =
          pushRecentCapped db.users r.sender_user_id ⟨tid, clock + 2⟩) ∧
      (t.TransactionInternal = false →
        (perform_transaction db clock r).2.1.notifications =
          db.notifications ++ [senderNotification r tid (clock + 4),
            receiverNotification r tid (clock + 4)] ∧
        (senderNotification r tid (clock + 4)).NotificationEvent =
          (if r.transaction_type = "AccountTransfer" then "TransferSent"
            else "PaymentMade") ∧
        (receiverNotification r tid (clock + 4)).NotificationEvent =
          (if r.transaction_type = "AccountTransfer" then "TransferReceived"
            else "PaymentReceived") ∧
        (senderNotification r tid (clock + 4)).NotificationUserName =
          r.sender_user_name ∧
        (receiverNotification r tid (clock + 4)).NotificationUserName =
          r.receiver_user_name ∧
        r.sender_user_id ≠ r.receiver_user_id ∧
        (perform_transaction db clock r).2.1.users =
          pushRecentCapped (pushRecentCapped db.users r.sender_user_id
            ⟨tid, clock + 2⟩) r.receiver_user_id ⟨tid, clock + 3⟩) := by
  obtain ⟨hpre, hcb⟩ := perform_ok_elim db clock r tid h
  obtain ⟨hg, htid, hacc, hnext, hif⟩ := callback_ret_spec db clock r tid _ _ hcb
  obtain ⟨d, hd, hfind⟩ := perform_ok_txn_doc db clock r tid hfresh h
  refine ⟨_, hfind, ?_, ?_, ?_⟩
  · show transaction_internal r = true ↔ _
    simp [transaction_internal]
  · intro hint
    have hint2 : transaction_internal r = true := hint
    rw [if_pos hint2] at hif
    exact ⟨hif.2.2.1, rfl, rfl, rfl, hif.1⟩
  · intro hint
    have hint2 : transaction_internal r = false := hint
    rw [if_neg (by simp [hint2])] at hif
    obtain ⟨hle, hgt, sa, su, ra, ru, hsa, hlt, hscl, hsnum, hstyp, hsu, hsuN,
      hra, hrcl, hrnum, hrtyp, hru, hruN⟩ := preValidation_none_elim db r hpre
    have hids : r.sender_user_id ≠ r.receiver_user_id := by
      intro heq
      rw [heq] at hsu
      have hsr : su = ru := by
        have := hsu.symm.trans hru
        injection this
      apply hg
      have hnames : r.sender_user_name = r.receiver_user_name := by
        rw [← hsuN, ← hruN, hsr]
      refine ⟨hnames, ?_⟩
      by_contra hnum
      have hti : transaction_internal r = true := by
        simp [transaction_internal, hnames, hnum]
      rw [hti] at hint2
      cases hint2
    exact ⟨hif.2.2.1, rfl, rfl, rfl, rfl, hids, hif.1⟩

/-- C4 witness: alice's concrete internal transfer commits with
`internal = true`, one `InternalTransfer` notification and one
recent-activity update on the shared user. -/
theorem claim4_internal_fanout_witness :
    ∃ t, (perform_transaction dbTwoAccounts 0 reqInternal).2.1.transactions.find?
        (fun x => x.oid == 0) = some t ∧
      t.TransactionInternal = true ∧
      (perform_transaction dbTwoAccounts 0 reqInternal).2.1.notifications =
        dbTwoAccounts.notifications ++ [internalNotification reqInternal 0 3] ∧
      (perform_transaction dbTwoAccounts 0 reqInternal).2.1.users =
        pushRecentCapped dbTwoAccounts.users 10 ⟨0, 2⟩ := by
  obtain ⟨t, hfind, hiff, hintC, _⟩ :=
    claim4_internal_fanout dbTwoAccounts 0 reqInternal 0
      (by intro t ht; simp [dbTwoAccounts] at ht)
      (by
        simp [perform_transaction, preValidation, callback, findAndIncBalance,
          updateTxnFirst, applySliceCap, pushRecentCapped, pyTruthy,
          transaction_internal, initialTxnDoc, completedStamp, notifiedStamp,
          notifAccountsOf, internalNotification, senderNotification,
          receiverNotification, PyFloat.le, PyFloat.gt, PyFloat.lt,
          PyFloat.add, PyFloat.neg, dbTwoAccounts, reqInternal, reqAliceBob,
          acct1, acct2, userAlice, userBob, List.find?]
        norm_num)
  have hint : t.TransactionInternal = true := hiff.mpr ⟨rfl, by decide⟩
  obtain ⟨hnotif, _, _, _, husers⟩ := hintC hint
  exact ⟨t, hfind, hint, hnotif, husers⟩

/-- One `perform_transaction` call preserves the 20-entry bound on every
user's recent-transactions array. -/
theorem perform_preserves_RecentLenInv (db : DB) (clock : Nat)
    (r : TransferRequest) (hinv : RecentLenInv db) :
    RecentLenInv (perform_transaction db clock r).2.1 := by
  by_cases hok : ∃ tid, (perform_transaction db clock r).1 = .ok tid
  · obtain ⟨tid, h⟩ := hok
    obtain ⟨hpre, hcb⟩ := perform_ok_elim db clock r tid h
    obtain ⟨hg, htid, hacc, hnext, hif⟩ := callback_ret_spec db clock r tid _ _ hcb
    intro u hu
    by_cases hint : transaction_internal r = true
    · rw [if_pos hint] at hif
      rw [hif.1] at hu
      exact pushRecentCapped_inv db.users _ _ hinv u hu
    · rw [if_neg hint] at hif
      rw [hif.1] at hu
      exact pushRecentCapped_inv _ _ _
        (pushRecentCapped_inv db.users _ _ hinv) u hu
  · push_neg at hok
    rw [(perform_fail_unchanged db clock r hok).1]
    exact hinv

/-- C5: starting from any state satisfying the 20-entry bound, after any
number of transfers every user's `RecentTransactions` array still has at
most 20 entries; the `$slice: -20` primitive always caps at 20, keeps a
suffix of the appended array (the most recent entries; the evicted ones are
the oldest), and evicts nothing while the array held fewer than 20. -/
theorem claim5_recent_bounded (db : DB) (clock : Nat)
    (reqs : List TransferRequest) (hinv : RecentLenInv db) :
    RecentLenInv (performAll db clock reqs).1 ∧
    (∀ (l : List RecentTxn) (e : RecentTxn),
      (applySliceCap (l ++ [e])).length ≤ 20 ∧
      applySliceCap (l ++ [e]) <:+ l ++ [e] ∧
      (l.length ≤ 19 → applySliceCap (l ++ [e]) = l ++ [e])) := by
  constructor
  · induction reqs generalizing db clock with
    | nil => exact hinv
    | cons r rs ih =>
      exact ih _ _ (perform_preserves_RecentLenInv db clock r hinv)
  · intro l e
    refine ⟨applySliceCap_length_le _, applySliceCap_suffix _, fun hl => ?_⟩
    exact applySliceCap_of_le _ (by simp; omega)

/-- C5 witness: the bound holds concretely after running the alice-to-bob
transfer twice from the concrete database. -/
theorem claim5_recent_bounded_witness :
    RecentLenInv (performAll dbTwoAccounts 0 [reqAliceBob, reqAliceBob]).1 ∧
    (∀ (l : List RecentTxn) (e : RecentTxn),
      (applySliceCap (l ++ [e])).length ≤ 20 ∧
      applySliceCap (l ++ [e]) <:+ l ++ [e] ∧
      (l.length ≤ 19 → applySliceCap (l ++ [e]) = l ++ [e])) :=
  claim5_recent_bounded dbTwoAccounts 0 [reqAliceBob, reqAliceBob]
    (by intro u hu; fin_cases hu <;> simp [userAlice, userBob])

/-- C8 counterexample: for a sender account that is both Closed and
underfunded, the reported failure is the insufficient-funds error, not the
closed-account error — the code checks the balance before the status. -/
theorem claim8_counterexample :
    perform_transaction dbClosedPoor 0 reqClosedPoor =
      (.logged ("Insufficient funds in sender account."), dbClosedPoor, 0) ∧
    acct3.AccountStatus = "Closed" ∧
    acct3.AccountBalance.lt reqClosedPoor.transaction_amount = true ∧
    TxnResult.logged ("Insufficient funds in sender account.") ≠
      TxnResult.logged ("Sender account is closed.") := by
  refine ⟨?_, rfl, ?_, by simp⟩
  · simp [perform_transaction, preValidation, callback, findAndIncBalance,
      updateTxnFirst, applySliceCap, pushRecentCapped, pyTruthy,
      transaction_internal, initialTxnDoc, completedStamp, notifiedStamp,
      PyFloat.le, PyFloat.gt, PyFloat.lt, PyFloat.add, PyFloat.neg,
      dbClosedPoor, reqClosedPoor, reqAliceBob, acct3, acct2, userAlice,
      userBob, List.find?]
    norm_num
  · simp [acct3, reqClosedPoor, reqAliceBob, PyFloat.lt]
    norm_num

/-- C8 (amended): the cascade runs in source order, but inside the
sender-account check the balance comparison precedes the Closed-status
check: an underfunded sender account is reported as insufficient funds even
when it is also Closed; the closed-account error is reported only when the
balance check passes. -/
theorem claim8_amended_order (db : DB) (clock : Nat) (r : TransferRequest)
    (sa : Account)
    (h1 : r.transaction_amount.le (.fin 0) = false)
    (h2 : r.transaction_amount.gt (.fin 500) = false)
    (hsa : db.accounts.find? (fun a => a.oid == r.account_id_sender) = some sa) :
    (sa.AccountBalance.lt r.transaction_amount = true →
      perform_transaction db clock r =
        (.logged ("Insufficient funds in sender account."), db, clock)) ∧
    (sa.AccountBalance.lt r.transaction_amount = false →
      sa.AccountStatus = "Closed" →
      perform_transaction db clock r =
        (.logged ("Sender account is closed."), db, clock)) := by
  constructor
  · intro hlt
    have hpre : preValidation db r =
        some ("Insufficient funds in sender account.") := by
      unfold preValidation
      rw [if_neg (by simp [h1]), if_neg (by simp [h2]), hsa]
      simp only []
      rw [if_pos hlt]
    unfold perform_transaction
    rw [hpre]
  · intro hlt hclosed
    have hpre : preValidation db r =
        some ("Sender account is closed.") := by
      unfold preValidation
      rw [if_neg (by simp [h1]), if_neg (by simp [h2]), hsa]
      simp only []
      rw [if_neg (by simp [hlt]), if_pos hclosed]
    unfold perform_transaction
    rw [hpre]

/-- C8 witness: at the concrete closed and underfunded account the first
branch of the amended claim fires. -/
theorem claim8_amended_order_witness :
    perform_transaction dbClosedPoor 0 reqClosedPoor =
      (.logged ("Insufficient funds in sender account."), dbClosedPoor, 0) :=
  (claim8_amended_order dbClosedPoor 0 reqClosedPoor acct3
    (by simp [reqClosedPoor, reqAliceBob, PyFloat.le])
    (by simp [reqClosedPoor, reqAliceBob, PyFloat.gt, PyFloat.lt]; norm_num)
    (by simp [dbClosedPoor, reqClosedPoor, reqAliceBob, acct3, List.find?])).1
    (by simp [acct3, reqClosedPoor, reqAliceBob, PyFloat.lt]; norm_num)

/-- C3 counterexample: `float("nan")` is a non-finite amount, yet it passes
every amount check (`nan <= 0` and `nan > 500` are both false in Python) and
the transfer commits, returning a transaction id. -/
theorem claim3_counterexample :
    reqNanAliceBob.transaction_amount = .nan ∧
    (∀ q : ℚ, (PyFloat.nan : PyFloat) ≠ .fin q) ∧
    (perform_transaction dbTwoAccounts 0 reqNanAliceBob).1 = .ok 0 := by
  refine ⟨rfl, by intro q; simp, ?_⟩
  simp [perform_transaction, preValidation, callback, findAndIncBalance,
    updateTxnFirst, applySliceCap, pushRecentCapped, pyTruthy,
    transaction_internal, initialTxnDoc, completedStamp, notifiedStamp,
    notifAccountsOf, internalNotification, senderNotification,
    receiverNotification, PyFloat.le, PyFloat.gt, PyFloat.lt, PyFloat.add,
    PyFloat.neg, dbTwoAccounts, reqNanAliceBob, reqAliceBob, acct1, acct2,
    userAlice, userBob, List.find?]

/-- C3 (amended): the amount checks reject exactly when `amount <= 0` or
`amount > 500` holds under IEEE comparison, with no writes; equivalently the
checks pass iff the amount is a positive finite value at most 500 — or NaN
(which compares false both ways).  Both infinities are rejected and 500
exactly passes, as the claim says; the NaN case is the correction. -/
theorem claim3_amended_amount_checks (db : DB) (clock : Nat)
    (r : TransferRequest) :
    (r.transaction_amount.le (.fin 0) = true →
      perform_transaction db clock r =
        (.logged ("Transaction amount must be greater than 0."), db, clock)) ∧
    (r.transaction_amount.le (.fin 0) = false →
      r.transaction_amount.gt (.fin 500) = true →
      perform_transaction db clock r =
        (.logged ("Transaction amount exceeds the limit of 500.0."),
          db, clock)) ∧
    ((r.transaction_amount.le (.fin 0) = false ∧
        r.transaction_amount.gt (.fin 500) = false) ↔
      (r.transaction_amount = .nan ∨
        ∃ q : ℚ, r.transaction_amount = .fin q ∧ 0 < q ∧ q ≤ 500)) := by
  refine ⟨?_, ?_, ?_⟩
  · intro hle
    have hpre : preValidation db r =
        some ("Transaction amount must be greater than 0.") := by
      unfold preValidation
      rw [if_pos hle]
    unfold perform_transaction
    rw [hpre]
  · intro hle hgt
    have hpre : preValidation db r =
        some ("Transaction amount exceeds the limit of 500.0.") := by
      unfold preValidation
      rw [if_neg (by simp [hle]), if_pos hgt]
    unfold perform_transaction
    rw [hpre]
  · cases ha : r.transaction_amount with
    | nan => simp [PyFloat.le, PyFloat.gt, PyFloat.lt]
    | inf t => cases t <;> simp [PyFloat.le, PyFloat.gt, PyFloat.lt]
    | fin q =>
      simp [PyFloat.le, PyFloat.gt, PyFloat.lt, not_le, not_lt]

/-- C3 witness: the concrete amount 600 is rejected with the ceiling error
and no state change, and 500 exactly passes the characterization. -/
theorem claim3_amended_amount_checks_witness :
    perform_transaction dbTwoAccounts 0 req600 =
      (.logged ("Transaction amount exceeds the limit of 500.0."),
        dbTwoAccounts, 0) ∧
    ((PyFloat.fin 500).le (.fin 0) = false ∧
      (PyFloat.fin 500).gt (.fin 500) = false) :=
  ⟨(claim3_amended_amount_checks dbTwoAccounts 0 req600).2.1
      (by simp [req600, reqAliceBob, PyFloat.le])
      (by simp [req600, reqAliceBob, PyFloat.gt, PyFloat.lt]; norm_num),
    by simp [PyFloat.le, PyFloat.gt, PyFloat.lt]⟩

/-- Every error of `validate_transaction_amount` carries HTTP status 400. -/
theorem validate_transaction_amount_error_status (a : Option PyFloat)
    (s : Nat) (msg : String)
    (h : validate_transaction_amount a = .error (s, msg)) : s = 400 := by
  cases a with
  | none =>
    simp [validate_transaction_amount] at h
    exact h.1.symm
  | some x =>
    simp only [validate_transaction_amount] at h
    split at h
    · simp at h
      exact h.1.symm
    · split at h
      · simp at h
        exact h.1.symm
      · simp at h

/-- C6: through the `/perform-digital-payment` endpoint, a missing, empty or
`"N/A"` payment method is rejected with HTTP 400 before any atomic unit
opens — no state change and no clock tick — and every transaction the
endpoint does commit is a `DigitalPayment` record carrying the endpoint's
payment method, which is truthy and not `"N/A"`. -/
theorem claim6_digital_payment_method (db : DB) (clock : Nat)
    (raw_amount : Option PyFloat) (payment_method : Option String)
    (account_id_sender account_id_receiver : Nat)
    (sender_user_id : Nat) (sender_user_name : String)
    (sender_account_number sender_account_type : String)
    (receiver_user_id : Nat) (receiver_user_name : String)
    (receiver_account_number receiver_account_type : String)
    (hfresh : TxnFresh db) :
    ((pyTruthy payment_method = false ∨ payment_method = some ("N/A")) →
      ∃ d, perform_digital_payment db clock raw_amount payment_method
          account_id_sender account_id_receiver sender_user_id
          sender_user_name sender_account_number sender_account_type
          receiver_user_id receiver_user_name receiver_account_number
          receiver_account_type = (.httpError 400 d, db, clock)) ∧
    (∀ tid, (perform_digital_payment db clock raw_amount payment_method
          account_id_sender account_id_receiver sender_user_id
          sender_user_name sender_account_number sender_account_type
          receiver_user_id receiver_user_name receiver_account_number
          receiver_account_type).1 = .success tid →
      pyTruthy payment_method = true ∧ payment_method ≠ some ("N/A") ∧
      ∃ t, (perform_digital_payment db clock raw_amount payment_method
            account_id_sender account_id_receiver sender_user_id
            sender_user_name sender_account_number sender_account_type
            receiver_user_id receiver_user_name receiver_account_number
            receiver_account_type).2.1.transactions.find?
          (fun x => x.oid == tid) = some t ∧
        t.TransactionType = "DigitalPayment" ∧
        t.TransactionPaymentMethod = payment_method ∧
        t.TransactionPaymentMethod ≠ some ("N/A")) := by
  constructor
  · intro hpm
    unfold perform_digital_payment
    cases hv : validate_transaction_amount raw_amount with
    | error e =>
      obtain ⟨s, msg⟩ := e
      have hs := validate_transaction_amount_error_status raw_amount s msg hv
      subst hs
      exact ⟨msg, rfl⟩
    | ok a =>
      refine ⟨"Payment method must be selected for a digital payment.", ?_⟩
      simp [hpm]
  · intro tid hsucc
    unfold perform_digital_payment at hsucc ⊢
    cases hv : validate_transaction_amount raw_amount with
    | error e =>
      obtain ⟨s, msg⟩ := e
      rw [hv] at hsucc
      simp at hsucc
    | ok a =>
      rw [hv] at hsucc
      by_cases hpm : pyTruthy payment_method = false ∨
          payment_method = some ("N/A")
      · simp [hpm] at hsucc
      · simp only [eq_false hpm, if_false] at hsucc ⊢
        push_neg at hpm
        obtain ⟨hpm1, hpm2⟩ := hpm
        have hpt : pyTruthy payment_method = true := by
          cases hb : pyTruthy payment_method
          · exact absurd hb hpm1
          · rfl
        refine ⟨hpt, hpm2, ?_⟩
        cases hres : (perform_transaction db clock
            { account_id_receiver := account_id_receiver
              account_id_sender := account_id_sender
              transaction_amount := a
              sender_user_id := sender_user_id
              sender_user_name := sender_user_name
              sender_account_number := sender_account_number
              sender_account_type := sender_account_type
              receiver_user_id := receiver_user_id
              receiver_user_name := receiver_user_name
              receiver_account_number := receiver_account_number
              receiver_account_type := receiver_account_type
              transaction_type := "DigitalPayment"
              transaction_description := "N/A"
              payment_method := payment_method }).1 with
        | ok tid2 =>
          rw [hres] at hsucc
          have htid : tid2 = tid := by simpa using hsucc
          subst htid
          obtain ⟨d, hd, hfind⟩ :=
            perform_ok_txn_doc db clock _ tid2 hfresh hres
          simp only []
          refine ⟨_, hfind, rfl, ?_, ?_⟩
          · show (if ("DigitalPayment" : String) = "DigitalPayment" ∧
                pyTruthy payment_method then payment_method else none) =
              payment_method
            rw [if_pos ⟨rfl, hpt⟩]
          · show (if ("DigitalPayment" : String) = "DigitalPayment" ∧
                pyTruthy payment_method then payment_method else none) ≠
              some ("N/A")
            rw [if_pos ⟨rfl, hpt⟩]
            exact hpm2
        | logged msg =>
          rw [hres] at hsucc
          simp at hsucc
        | falseGuard =>
          rw [hres] at hsucc
          simp at hsucc

/-- C6 witness: the concrete digital payment with payment method `"N/A"` is
rejected with HTTP 400 and no state or clock change. -/
theorem claim6_digital_payment_method_witness :
    ∃ d, perform_digital_payment dbTwoAccounts 0 (some (.fin 50)) (some ("N/A"))
        1 2 10 "alice" "111" "Checking" 11 "bob" "222" "Savings" =
      (.httpError 400 d, dbTwoAccounts, 0) :=
  (claim6_digital_payment_method dbTwoAccounts 0 (some (.fin 50)) (some ("N/A"))
      1 2 10 "alice" "111" "Checking" 11 "bob" "222" "Savings"
      (by intro t ht; simp [dbTwoAccounts] at ht)).1 (Or.inr rfl)
